import Mathlib

/-!
Verification development for the Google Play Store dashboard pipeline
(`scripts/streamlit_app.py`).

The Python source is a single-pass pandas pipeline.  We embed it shallowly:
tables are lists of records, numeric columns are rationals (the float values
arising in the claims are all exactly representable), pandas `NaN` results of
coercion are `Option`/an explicit `Cell`/`FVal` value, and the string-munging
steps (`str.replace`, `str.strip`, `str.startswith`) are executable functions
on `List Char`.
-/

namespace PlayDash

/-! ### String utilities (models of Python `str` methods) -/

/-- Does the list start with the given pattern?  Model of Python
`str.startswith` restricted to a single candidate. -/
def listStartsWith : List Char → List Char → Bool
  | _, [] => true
  | [], _ :: _ => false
  | c :: cs, p :: ps => c = p && listStartsWith cs ps

/-- Model of Python `str.startswith` with a tuple of candidates. -/
def pyStartsWithAny (s : String) (ps : List String) : Bool :=
  ps.any (fun p => listStartsWith s.data p.data)

/-- Fuelled worker for `pyReplace`: replaces every non-overlapping occurrence
of `pat` left to right, like Python `str.replace` (`regex=False` in pandas
`Series.str.replace`). -/
def replaceAux (pat rep : List Char) : Nat → List Char → List Char
  | 0, cs => cs
  | _ + 1, [] => []
  | fuel + 1, c :: cs =>
    if pat ≠ [] ∧ listStartsWith (c :: cs) pat then
      rep ++ replaceAux pat rep fuel ((c :: cs).drop pat.length)
    else
      c :: replaceAux pat rep fuel cs

/-- Model of Python `str.replace(pat, rep)` (all occurrences, no regex). -/
def pyReplace (s pat rep : String) : String :=
  ⟨replaceAux pat.data rep.data s.data.length s.data⟩

/-- Model of Python `str.strip()`: drop whitespace from both ends. -/
def pyStrip (s : String) : String :=
  ⟨((s.data.dropWhile Char.isWhitespace).reverse.dropWhile Char.isWhitespace).reverse⟩

/-! ### Numeric parsing (model of `pd.to_numeric(errors="coerce")`) -/

/-- Numeric value of a digit run (most significant first). -/
def digitsToNat (cs : List Char) : Nat :=
  cs.foldl (fun n c => n * 10 + (c.toNat - 48)) 0

/-- Model of `pd.to_numeric(errors="coerce")` on a single string cell,
restricted to plain decimal literals `[-]digits[.digits]` (the forms occurring
in the dataset's `Installs`/`Price`/`Reviews` columns after cleaning);
scientific notation is out of scope.  `none` is pandas `NaN`. -/
def toNumeric? (s : String) : Option ℚ :=
  let cs := s.data
  let signed : Bool × List Char :=
    match cs with
    | '-' :: rest => (true, rest)
    | _ => (false, cs)
  let intPart := signed.2.takeWhile Char.isDigit
  let rest := signed.2.dropWhile Char.isDigit
  let mag? : Option ℚ :=
    match rest with
    | [] => if intPart = [] then none else some (mkRat (Int.ofNat (digitsToNat intPart)) 1)
    | '.' :: frac =>
      if frac.all Char.isDigit ∧ (intPart ≠ [] ∨ frac ≠ []) then
        some (mkRat (Int.ofNat (digitsToNat intPart * 10 ^ frac.length + digitsToNat frac))
          (10 ^ frac.length))
      else none
    | _ :: _ => none
  mag?.map (fun q => if signed.1 then -q else q)

/-! ### Data model -/

/-- One row of the raw CSV, every field still a string
(`pd.read_csv` with object dtype; the columns the pipeline touches). -/
structure RawRow where
  app : String
  category : String
  installs : String
  price : String
  reviews : String
  rating : String
  lastUpdated : String
deriving DecidableEq

/-- A pandas cell of object/float dtype: a still-raw string, a parsed number,
or `NaN`. -/
inductive Cell where
  | str (v : String)
  | num (v : ℚ)
  | nan
deriving DecidableEq

/-- Model of the external `pd.to_datetime(errors="coerce")` restricted to ISO
`YYYY-MM-DD` strings; every other shape coerces to `NaT` (`none`).  Returns
(year, month, day). -/
def parseDate? (s : String) : Option (Nat × Nat × Nat) :=
  match s.data.splitOn '-' with
  | [y, m, d] =>
    if y.length = 4 ∧ m.length = 2 ∧ d.length = 2 ∧
        y.all Char.isDigit ∧ m.all Char.isDigit ∧ d.all Char.isDigit ∧
        1 ≤ digitsToNat m ∧ digitsToNat m ≤ 12 ∧
        1 ≤ digitsToNat d ∧ digitsToNat d ≤ 31 then
      some (digitsToNat y, digitsToNat m, digitsToNat d)
    else none
  | _ => none

/-- One row after `load_data`'s cleaning.  `installs`, `price`, `revenue` are
plain rationals because the source ends both numeric cleanings with
`.fillna(0.0)`; `lastUpdated` keeps the possible `NaT`; `reviews`/`rating`
are untouched by `load_data` and stay raw cells. -/
structure CleanRow where
  app : String
  category : String
  installs : ℚ
  price : ℚ
  reviews : Cell
  rating : Cell
  lastUpdated : Option (Nat × Nat × Nat)
  revenue : ℚ
deriving DecidableEq

/-! ### `load_data` cleaning steps -/

/-- The `Price` cleaning chain of `load_data`:
`.str.replace("$","").str.replace("Free","0").str.strip()` followed by
`pd.to_numeric(errors="coerce").fillna(0.0)`. -/
def cleanPrice (s : String) : ℚ :=
  (toNumeric? (pyStrip (pyReplace (pyReplace s "$" "") "Free" "0"))).getD 0

/-- The `Installs` cleaning chain of `load_data`:
`.str.replace(",","").str.replace("+","").str.strip()` followed by
`pd.to_numeric(errors="coerce").fillna(0.0)`. -/
def cleanInstalls (s : String) : ℚ :=
  (toNumeric? (pyStrip (pyReplace (pyReplace s "," "") "+" ""))).getD 0

/-- The per-row effect of `load_data`: parse `Last Updated`, clean `Price` and
`Installs`, derive `Revenue = Price * Installs`.  No row is ever dropped. -/
def cleanRow (r : RawRow) : CleanRow :=
  { app := r.app
    category := r.category
    installs := cleanInstalls r.installs
    price := cleanPrice r.price
    reviews := .str r.reviews
    rating := .str r.rating
    lastUpdated := parseDate? r.lastUpdated
    revenue := cleanPrice r.price * cleanInstalls r.installs }

/-- The cleaning body of `load_data` over the whole table. -/
def load_clean (raw : List RawRow) : List CleanRow :=
  raw.map cleanRow

/-- Function `load_data` including the `os.path.exists` guard: when the CSV is absent
it shows the `st.error` message and returns an empty table; otherwise it
returns the cleaned table.  The cached function is called once per render. -/
def load_data (fileExists : Bool) (raw : List RawRow) : Option String × List CleanRow :=
  if fileExists then (none, load_clean raw)
  else (some "File google_playstore.csv not found.", [])

/-- The line `paid_apps = df[df["Price"] > 0] if not df.empty else pd.DataFrame()`. -/
def paid_apps (df : List CleanRow) : List CleanRow :=
  if df.isEmpty then [] else df.filter (fun r => 0 < r.price)

/-! ### View gate -/

/-- Function `is_ist_time_between(start_hour, end_hour)`: the boolean component of the
returned pair, `start_hour <= now.hour < end_hour`, as a function of the
current IST wall-clock reading (hour, minute).  Only the hour is consulted. -/
def is_ist_time_between (startHour endHour : Nat) (nowHour nowMinute : Nat) : Bool :=
  decide (startHour ≤ nowHour) && decide (nowHour < endHour)

/-- The choropleth-map gate, `is_ist_time_between(18, 20)`. -/
def show_map (nowHour nowMinute : Nat) : Bool :=
  is_ist_time_between 18 20 nowHour nowMinute

/-- The time-series gate, `is_ist_time_between(18, 21)`. -/
def show_chart (nowHour nowMinute : Nat) : Bool :=
  is_ist_time_between 18 21 nowHour nowMinute

/-! ### Choropleth map view -/

/-- The map-view row filter: `Installs > 1_000_000` and `Category` does not
start with A, C, G or S. -/
def mapFilter (df : List CleanRow) : List CleanRow :=
  df.filter (fun r =>
    decide (1000000 < r.installs) && !(pyStartsWithAny r.category ["A", "C", "G", "S"]))

/-- Total `Installs` of one category group
(`groupby("Category")["Installs"].sum()` at one key). -/
def catInstallSum (df : List CleanRow) (c : String) : ℚ :=
  ((df.filter (fun r => r.category = c)).map (fun r => r.installs)).sum

/-- Row count of one category group. -/
def catRowCount (df : List CleanRow) (c : String) : Nat :=
  (df.filter (fun r => r.category = c)).length

/-- The distinct categories of a table: the group keys of
`groupby("Category")`. -/
def tableCategories (df : List CleanRow) : List String :=
  (df.map (fun r => r.category)).dedup

/-- Lexicographic comparison of strings as char lists; the order pandas uses
when sorting group keys. -/
def charListLe : List Char → List Char → Bool
  | [], _ => true
  | _ :: _, [] => false
  | c₁ :: t₁, c₂ :: t₂ => decide (c₁.toNat < c₂.toNat) || (c₁ = c₂ && charListLe t₁ t₂)

/-- Key order of the pandas groupby result. -/
def nameLe (c₁ c₂ : String) : Prop :=
  charListLe c₁.data c₂.data = true

instance : DecidableRel nameLe := fun c₁ c₂ =>
  inferInstanceAs (Decidable (_ = true))

/-- Ranking used by `nlargest`: larger total installs first. -/
def sumGe (df : List CleanRow) (c₁ c₂ : String) : Prop :=
  catInstallSum df c₂ ≤ catInstallSum df c₁

instance (df : List CleanRow) : DecidableRel (sumGe df) := fun _ _ =>
  inferInstanceAs (Decidable (_ ≤ _))

instance (df : List CleanRow) : IsTotal String (sumGe df) :=
  ⟨fun a b => le_total (catInstallSum df b) (catInstallSum df a)⟩

instance (df : List CleanRow) : IsTrans String (sumGe df) :=
  ⟨fun _ _ _ h₁ h₂ => le_trans h₂ h₁⟩

/-- The ranking `nlargest` induces on the groupby result: group keys come out
of the groupby sorted; `nlargest` stably reorders them by descending group
sum (ties keep the key order). -/
def rankedCategories (df : List CleanRow) : List String :=
  ((tableCategories (mapFilter df)).insertionSort nameLe).insertionSort (sumGe (mapFilter df))

/-- The expression `filtered.groupby("Category")["Installs"].sum().nlargest(5).index`: the
first five of the ranked categories. -/
def top_categories (df : List CleanRow) : List String :=
  (rankedCategories df).take 5

/-- A row of `filtered_top` after the mock `Country` column
(`np.random.choice(["USA","IND","GBR","CAN","AUS"], size=len(filtered_top))`)
is attached; the assignment is kept abstract. -/
structure MapRow where
  row : CleanRow
  country : String
deriving DecidableEq

/-- The selection `filtered_top[filtered_top["Category"] == selected_category]`. -/
def selectedRows (rows : List MapRow) (selected : String) : List MapRow :=
  rows.filter (fun m => m.row.category = selected)

/-- The aggregation `.groupby("Country", as_index=False)["Installs"].sum()` over the selected
category's rows: one `(country, total installs)` pair per distinct country. -/
def agg_data (rows : List MapRow) (selected : String) : List (String × ℚ) :=
  (((selectedRows rows selected).map (fun m => m.country)).dedup).map
    (fun c => (c, (((selectedRows rows selected).filter (fun m => m.country = c)).map
      (fun m => m.row.installs)).sum))

/-! ### Time-series view -/

/-- An IEEE-754 double as produced by the growth computation: a finite value
(all finite values arising here are exact rationals), a signed infinity, or
`NaN`. -/
inductive FVal where
  | nan
  | inf
  | ninf
  | val (q : ℚ)
deriving DecidableEq

/-- Float evaluation of `((cur - prev) / prev) * 100` as pandas performs it,
with the IEEE-754 division conventions: `x / 0` is a signed infinity for
`x ≠ 0` and `0 / 0` is `NaN`. -/
def growthOf (prev cur : ℚ) : FVal :=
  if prev = 0 then
    if cur = 0 then .nan
    else if 0 < cur then .inf
    else .ninf
  else .val ((cur - prev) / prev * 100)

/-- Column `monthly["Growth"]` restricted to one category's month-ascending block:
the per-category `shift(1)` makes the first entry `NaN`; each later entry
compares with the previous month's value. -/
def growthSeries (installs : List ℚ) : List FVal :=
  match installs with
  | [] => []
  | _ :: tail => .nan :: (installs.zip tail).map (fun p => growthOf p.1 p.2)

/-- The comparison `Growth > 20` as evaluated on floats: `NaN` compares
false, `+inf` compares true. -/
def growthGt20 : FVal → Bool
  | .val q => decide (20 < q)
  | .inf => true
  | _ => false

/-- The highlight mask `monthly[monthly["Growth"] > 20]` computes for one
category's series. -/
def growthFlags (installs : List ℚ) : List Bool :=
  (growthSeries installs).map growthGt20

/-- Model of `pd.to_numeric(col, errors="coerce")` on one cell of an object column. -/
def coerceCell : Cell → Cell
  | .str v =>
    match toNumeric? (pyStrip v) with
    | some q => .num q
    | none => .nan
  | .num q => .num q
  | .nan => .nan

/-- The two in-place assignments at the top of the time-series section,
`df["Reviews"] = pd.to_numeric(df["Reviews"], errors="coerce")` and the same
for `df["Rating"]`, applied to the shared cleaned table `df` itself (every
later step of the section works on the `.copy()` frames). -/
def timeSeriesCoerce (df : List CleanRow) : List CleanRow :=
  df.map (fun r => { r with reviews := coerceCell r.reviews, rating := coerceCell r.rating })

/-! ### Revenue view (trendline) -/

/-- Arithmetic mean of a list of rationals. -/
def listMean (xs : List ℚ) : ℚ :=
  xs.sum / (xs.length : ℚ)

/-- Modelled from the spec: the source calls the external
`sklearn.linear_model.LinearRegression().fit(...).predict(...)`, whose code is
not in this repository; spec section 4.3 fixes the algorithm as closed-form
simple linear regression — slope = Cov(x, y) / Var(x), intercept =
mean y − slope * mean x — with the degenerate case Var(x) = 0 yielding a flat
line at mean y.  Returns (slope, intercept). -/
def olsFit (xs ys : List ℚ) : ℚ × ℚ :=
  let mx := listMean xs
  let my := listMean ys
  let varx := (xs.map (fun x => (x - mx) ^ 2)).sum
  let cov := ((xs.zip ys).map (fun p => (p.1 - mx) * (p.2 - my))).sum
  if varx = 0 then (0, my)
  else (cov / varx, my - cov / varx * mx)

/-- Value of the fitted line at one point. -/
def olsPredict (fit : ℚ × ℚ) (x : ℚ) : ℚ :=
  fit.2 + fit.1 * x

/-- What the Revenue-vs-Installs section renders: whether the empty-dataset
warning fires, and the trendline predictions when a fit happens. -/
structure RevenueRender where
  emptyWarning : Bool
  trendline : Option (List ℚ)
deriving DecidableEq

/-- The Revenue-vs-Installs section: warns when `df` is empty; fits the
regression and predicts per paid row only when `paid_apps` is nonempty. -/
def revenue_section (df : List CleanRow) : RevenueRender :=
  let paid := paid_apps df
  { emptyWarning := df.isEmpty
    trendline :=
      if paid.isEmpty then none
      else
        let fit := olsFit (paid.map (fun r => r.installs)) (paid.map (fun r => r.revenue))
        some (paid.map (fun r => olsPredict fit r.installs)) }

/-! ### Concrete sample rows and tables -/

/-- A raw row with every field well formed; concrete inputs override single
fields. -/
def sampleRaw : RawRow :=
  { app := "Foo"
    category := "Education"
    installs := "1,500,000+"
    price := "$0.99"
    reviews := "600"
    rating := "4.1"
    lastUpdated := "2021-03-15" }

/-- A cleaned row with the given category and installs, for concrete map-view
tables. -/
def catRow (cat : String) (inst : ℚ) : CleanRow :=
  { app := "A"
    category := cat
    installs := inst
    price := 0
    reviews := .str "700"
    rating := .str "4.0"
    lastUpdated := some (2021, 1, 1)
    revenue := 0 }

/-- Six filtered categories: "Weather" has six rows (strictly the largest row
count) but the smallest summed installs. -/
def sixCatTable : List CleanRow :=
  List.replicate 6 (catRow "Weather" 2000000) ++
    [catRow "Beauty" 100000000, catRow "Books" 90000000, catRow "Dating" 80000000,
      catRow "Events" 70000000, catRow "Tools" 60000000]

end PlayDash

namespace PlayDash


/-! ### Claim C1 — Installs cleaning -/

/-- Claim C1 as stated is false on the code: `load_data` ends the Installs
cleaning with `.fillna(0.0)` and drops nothing, so the literal `"Free"`
becomes exactly the number 0 and the row stays in the cleaned set. -/
theorem C1_counterexample :
    cleanInstalls "Free" = 0 ∧
    (load_clean [{ sampleRaw with installs := "Free" }]).map (fun r => r.installs) = [0] ∧
    (load_clean [{ sampleRaw with installs := "Free" }]).length = 1 := by
  decide

/-- Claim C1, amended: a row whose Installs string parses (after removing `+`
and `,` and stripping) gets exactly that number; `"Free"` and every other
parse failure get the number 0 — not a missing value — and no row is ever
excluded. -/
theorem C1_installs_cleaning :
    (∀ s q, toNumeric? (pyStrip (pyReplace (pyReplace s "," "") "+" "")) = some q →
      cleanInstalls s = q) ∧
    (∀ s, toNumeric? (pyStrip (pyReplace (pyReplace s "," "") "+" "")) = none →
      cleanInstalls s = 0) ∧
    cleanInstalls "1,500,000+" = 1500000 ∧
    cleanInstalls "Free" = 0 ∧
    (∀ raw : List RawRow, (load_clean raw).length = raw.length) := by
  refine ⟨?_, ?_, by decide, by decide, ?_⟩
  · intro s q h
    rw [cleanInstalls, h, Option.getD_some]
  · intro s h
    rw [cleanInstalls, h, Option.getD_none]
  · intro raw
    simp [load_clean]

/-- Witness for C1: the successful-parse branch at a concrete Installs
string. -/
theorem C1_witness : cleanInstalls "10,000+" = 10000 :=
  C1_installs_cleaning.1 "10,000+" 10000 (by decide)

/-! ### Claim C2 — mandatory fields and row dropping -/

/-- Claim C2 as stated is false on the code: `load_data` never drops a row,
and a row whose `Last Updated` fails `pd.to_datetime(errors="coerce")` is
retained with the mandatory date field missing (`NaT`). -/
theorem C2_counterexample :
    (load_clean [{ sampleRaw with lastUpdated := "never" }]).map
      (fun r => r.lastUpdated) = [none] ∧
    (load_clean [{ sampleRaw with lastUpdated := "never" }]).length = 1 := by
  decide

/-- Claim C2, amended: the cleaned table always has exactly as many rows as
the input (so its row count is trivially ≤ the input count); no row is
dropped — every raw row is cleaned in place, and a failed `Last Updated`
coercion is retained as a missing date rather than excluding the row.
Installs and Price themselves can never be missing because both cleanings end
in `.fillna(0.0)`. -/
theorem C2_no_drop :
    ∀ raw : List RawRow,
      (load_clean raw).length = raw.length ∧ load_clean raw = raw.map cleanRow := by
  intro raw
  exact ⟨by simp [load_clean], rfl⟩

/-! ### Claim C3 — Price cleaning -/

/-- Claim C3 as stated is false on the code: a Price string that fails to
parse becomes 0.0 via `.fillna(0.0)`, never a missing value, and the row is
retained. -/
theorem C3_counterexample :
    cleanPrice "abc" = 0 ∧
    (load_clean [{ sampleRaw with price := "abc" }]).map (fun r => r.price) = [0] := by
  decide

/-- Claim C3, amended: `"Free"` maps to exactly 0 and `"$4.99"` to exactly
4.99; a Price string that still fails to parse after the replacements becomes
0 (via `.fillna(0.0)`), not a missing value. -/
theorem C3_price_cleaning :
    cleanPrice "Free" = 0 ∧
    cleanPrice "$4.99" = 4.99 ∧
    (∀ s q, toNumeric? (pyStrip (pyReplace (pyReplace s "$" "") "Free" "0")) = some q →
      cleanPrice s = q) ∧
    (∀ s, toNumeric? (pyStrip (pyReplace (pyReplace s "$" "") "Free" "0")) = none →
      cleanPrice s = 0) := by
  refine ⟨by decide, ?_, ?_, ?_⟩
  · have h : cleanPrice "$4.99" = mkRat 499 100 := by decide
    rw [h, show (4.99 : ℚ) = 499 / 100 by norm_num]
    norm_num [mkRat, Rat.normalize]
  · intro s q h
    rw [cleanPrice, h, Option.getD_some]
  · intro s h
    rw [cleanPrice, h, Option.getD_none]

/-- Witness for C3: the successful-parse branch at a concrete Price
string. -/
theorem C3_witness : cleanPrice "$0.99" = mkRat 99 100 :=
  C3_price_cleaning.2.2.1 "$0.99" (mkRat 99 100) (by decide)

/-! ### Claim C4 — month-over-month growth -/

/-- Claim C4 as stated is false on the code: when the previous month's
installs are 0 and the current month's are positive, the float division
yields `+inf`, which satisfies `Growth > 20`, so the month IS flagged rather
than excluded from highlighting. -/
theorem C4_counterexample :
    growthSeries [0, 5] = [.nan, .inf] ∧ growthFlags [0, 5] = [false, true] := by
  constructor <;> simp [growthSeries, growthOf, growthFlags, growthGt20]

/-- Claim C4, amended: per category, `Growth[i] = (Installs[i] −
Installs[i−1]) / Installs[i−1] × 100` whenever the previous value is nonzero;
the first month's growth is `NaN` (never flagged), and so is a 0-to-0 month;
but a month whose previous value is 0 and current value is positive gets
`+inf` and is flagged.  Exactly the entries comparing greater than 20 are
flagged.  For `[100, 150, 90]` the series is `[NaN, 50, -40]` with only the
second month flagged. -/
theorem C4_growth :
    (∀ prev cur : ℚ, prev ≠ 0 → growthOf prev cur = .val ((cur - prev) / prev * 100)) ∧
    growthOf 0 0 = .nan ∧
    (∀ cur : ℚ, 0 < cur → growthOf 0 cur = .inf) ∧
    (∀ (x : ℚ) (xs : List ℚ), growthSeries (x :: xs) =
      .nan :: ((x :: xs).zip xs).map (fun p => growthOf p.1 p.2)) ∧
    (∀ q : ℚ, growthGt20 (.val q) = decide (20 < q)) ∧
    growthGt20 .inf = true ∧
    growthGt20 .nan = false ∧
    (∀ installs : List ℚ, growthFlags installs = (growthSeries installs).map growthGt20) ∧
    growthSeries [100, 150, 90] = [.nan, .val 50, .val (-40)] ∧
    growthFlags [100, 150, 90] = [false, true, false] := by
  refine ⟨?_, by simp [growthOf], ?_, ?_, fun q => rfl, rfl, rfl, fun i => rfl, ?_, ?_⟩
  · intro prev cur h
    simp [growthOf, h]
  · intro cur h
    simp [growthOf, h, h.ne.symm]
  · intro x xs
    rfl
  · simp [growthSeries, growthOf]
    norm_num
  · simp [growthFlags, growthSeries, growthOf, growthGt20]
    norm_num

/-- Witness for C4: the nonzero-previous branch at the concrete pair
(100, 150) evaluates to 50 percent growth. -/
theorem C4_witness : growthOf 100 150 = .val 50 :=
  (C4_growth.1 100 150 (by norm_num)).trans (by norm_num)

/-! ### Claim C5 — degenerate regression input -/

/-- Claim C5: when every Installs value is the same, the fit degenerates to
Var = 0, the model returns the flat line at mean Revenue, and every
prediction equals that mean; no division error arises (the zero-variance case
is an explicit branch). -/
theorem C5_degenerate_ols (xs ys : List ℚ) (c : ℚ) (hne : xs ≠ [])
    (hall : ∀ x ∈ xs, x = c) :
    ∀ x, olsPredict (olsFit xs ys) x = listMean ys := by
  intro x
  have hmx : listMean xs = c := by
    have hrep : xs = List.replicate xs.length c := List.eq_replicate_length.mpr hall
    have hsum : xs.sum = (xs.length : ℚ) * c := by
      conv_lhs => rw [hrep]
      simp [List.sum_replicate, nsmul_eq_mul]
    have hlen : (xs.length : ℚ) ≠ 0 := by
      have : xs.length ≠ 0 := by simpa [List.length_eq_zero] using hne
      exact_mod_cast this
    rw [listMean, hsum, mul_comm, mul_div_assoc, div_self hlen, mul_one]
  have hvar : (xs.map (fun y => (y - listMean xs) ^ 2)).sum = 0 := by
    apply List.sum_eq_zero
    intro q hq
    rcases List.mem_map.1 hq with ⟨y, hy, rfl⟩
    rw [hmx, hall y hy, sub_self]
    ring
  have hfit : olsFit xs ys = (0, listMean ys) := by
    simp only [olsFit]
    rw [if_pos hvar]
  rw [hfit, olsPredict]
  ring

/-- Witness for C5: two paid rows with identical installs 5 and revenues 1
and 3 predict the mean revenue 2 everywhere. -/
theorem C5_witness : olsPredict (olsFit [(5 : ℚ), 5] [1, 3]) 7 = 2 :=
  (C5_degenerate_ols [(5 : ℚ), 5] [1, 3] 5 (by decide) (by decide) 7).trans
    (by norm_num [listMean])

/-! ### Claim C6 — time-window gate -/

/-- The two-comparison form of the gate agrees with deciding the conjunction
directly. -/
lemma decide_and_eq (p q : Prop) [Decidable p] [Decidable q] :
    (decide p && decide q) = decide (p ∧ q) := by
  by_cases hp : p <;> by_cases hq : q <;> simp [hp, hq]

/-- Claim C6: the map view is shown exactly for IST hour-of-day in [18, 20)
and the time-series view exactly for [18, 21); at 17:59 the map is hidden, at
18:00 and 19:59 visible, at 20:00 hidden.  Only `now.hour` is compared, so
minutes are irrelevant, matching the half-open boundary policy. -/
theorem C6_time_gate :
    (∀ h m, show_map h m = decide (18 ≤ h ∧ h < 20)) ∧
    (∀ h m, show_chart h m = decide (18 ≤ h ∧ h < 21)) ∧
    show_map 17 59 = false ∧
    show_map 18 0 = true ∧
    show_map 19 59 = true ∧
    show_map 20 0 = false := by
  refine ⟨?_, ?_, by decide, by decide, by decide, by decide⟩
  · intro h m
    simp only [show_map, is_ist_time_between, decide_and_eq]
  · intro h m
    simp only [show_chart, is_ist_time_between, decide_and_eq]

/-! ### Claim C9 — missing source file -/

/-- Claim C9: when the CSV is absent, `load_data` reports the user-visible
error message and yields an empty table, after which the render does no data
processing: `paid_apps` is empty and the revenue section fires its warning
and fits nothing.  `load_data` is called exactly once per render (it is the
cached loader); no retry exists in the pipeline. -/
theorem C9_missing_file :
    ∀ raw : List RawRow,
      load_data false raw = (some "File google_playstore.csv not found.", []) ∧
      paid_apps (load_data false raw).2 = [] ∧
      revenue_section (load_data false raw).2 =
        { emptyWarning := true, trendline := none } := by
  intro raw
  exact ⟨rfl, rfl, rfl⟩

/-! ### Claim C7 — top-5 categories of the map view -/

/-- Claim C7 as stated is false on the code: `top_categories` ranks by
summed installs (`.sum().nlargest(5)`), not by row count.  In `sixCatTable`,
"Weather" has strictly the largest row count among the filtered categories
yet is excluded from the top 5. -/
theorem C7_counterexample :
    ("Weather" ∈ tableCategories (mapFilter sixCatTable)) ∧
    (∀ c ∈ tableCategories (mapFilter sixCatTable), c ≠ "Weather" →
      catRowCount (mapFilter sixCatTable) c < catRowCount (mapFilter sixCatTable) "Weather") ∧
    "Weather" ∉ top_categories sixCatTable := by
  with_unfolding_all exact of_decide_eq_true rfl

/-- Claim C7, amended: among the rows passing the map-view filter, the view
restricts to the (at most) 5 categories with the highest summed installs —
every chosen category's filtered install sum is at least that of every
category left out. -/
theorem C7_top_categories (df : List CleanRow) :
    (∀ c ∈ top_categories df, c ∈ tableCategories (mapFilter df)) ∧
    (∀ c ∈ top_categories df, ∀ c₂ ∈ tableCategories (mapFilter df),
      c₂ ∉ top_categories df →
      catInstallSum (mapFilter df) c₂ ≤ catInstallSum (mapFilter df) c) := by
  have hperm : List.Perm (rankedCategories df) (tableCategories (mapFilter df)) :=
    (List.perm_insertionSort _ _).trans (List.perm_insertionSort _ _)
  have hsorted : List.Sorted (sumGe (mapFilter df)) (rankedCategories df) :=
    List.sorted_insertionSort _ _
  constructor
  · intro c hc
    exact hperm.mem_iff.mp (List.take_subset 5 (rankedCategories df) hc)
  · intro c hc c₂ hc₂ hnot
    have hc₂l : c₂ ∈ (rankedCategories df).take 5 ++ (rankedCategories df).drop 5 := by
      rw [List.take_append_drop]
      exact hperm.mem_iff.mpr hc₂
    have hc₂drop : c₂ ∈ (rankedCategories df).drop 5 := by
      rcases List.mem_append.mp hc₂l with h | h
      · exact absurd h hnot
      · exact h
    have hpw : List.Pairwise (sumGe (mapFilter df))
        ((rankedCategories df).take 5 ++ (rankedCategories df).drop 5) := by
      rw [List.take_append_drop]
      exact hsorted
    exact (List.pairwise_append.mp hpw).2.2 c hc c₂ hc₂drop

/-- Witness for C7: in the concrete six-category table the chosen "Tools"
dominates the excluded "Weather" by summed installs. -/
theorem C7_witness :
    catInstallSum (mapFilter sixCatTable) "Weather" ≤
      catInstallSum (mapFilter sixCatTable) "Tools" :=
  (C7_top_categories sixCatTable).2 "Tools"
    (by with_unfolding_all exact of_decide_eq_true rfl) "Weather" (by decide)
    (by with_unfolding_all exact of_decide_eq_true rfl)

/-! ### Claim C8 — views and the shared cleaned table -/

/-- Claim C8 as stated is false on the code: the time-series section assigns
`pd.to_numeric(...)` back into `df["Reviews"]` and `df["Rating"]` on the
shared cleaned table, so after it runs the table is changed (here the raw
`"700"` cell becomes the float 700). -/
theorem C8_counterexample :
    timeSeriesCoerce [catRow "Beauty" 5] ≠ [catRow "Beauty" 5] := by
  decide

/-- Claim C8, amended: the revenue and map views work on filtered copies, but
the time-series view mutates the shared cleaned table in place by coercing
the `Reviews` and `Rating` columns to numeric; the mutation touches only
those two columns — row count and every other column are unchanged (its
subsequent filtering then operates on `.copy()` frames). -/
theorem C8_view_mutation :
    ∀ df : List CleanRow,
      (timeSeriesCoerce df).length = df.length ∧
      (timeSeriesCoerce df).map (fun r =>
          (r.app, r.category, r.installs, r.price, r.lastUpdated, r.revenue)) =
        df.map (fun r => (r.app, r.category, r.installs, r.price, r.lastUpdated, r.revenue)) ∧
      (timeSeriesCoerce df).map (fun r => r.reviews) =
        df.map (fun r => coerceCell r.reviews) ∧
      (timeSeriesCoerce df).map (fun r => r.rating) =
        df.map (fun r => coerceCell r.rating) := by
  intro df
  refine ⟨by simp [timeSeriesCoerce], ?_, ?_, ?_⟩ <;>
    simp [timeSeriesCoerce, List.map_map, Function.comp]

/-! ### Claim C10 — country aggregation preserves totals -/

/-- Splitting a sum of mapped values over a Boolean filter and its
complement. -/
lemma sum_filter_split {α : Type} (l : List α) (p : α → Bool) (v : α → ℚ) :
    ((l.filter p).map v).sum + ((l.filter (fun a => !p a)).map v).sum = (l.map v).sum := by
  induction l with
  | nil => simp
  | cons a t ih =>
    by_cases h : p a = true
    · have h₁ : (a :: t).filter p = a :: t.filter p := by
        simp [List.filter_cons, h]
      have h₂ : (a :: t).filter (fun x => !p x) = t.filter (fun x => !p x) := by
        simp [List.filter_cons, h]
      rw [h₁, h₂, List.map_cons, List.sum_cons, List.map_cons, List.sum_cons, add_assoc, ih]
    · have hf : p a = false := by
        simpa using h
      have h₁ : (a :: t).filter p = t.filter p := by
        simp [List.filter_cons, hf]
      have h₂ : (a :: t).filter (fun x => !p x) = a :: t.filter (fun x => !p x) := by
        simp [List.filter_cons, hf]
      rw [h₁, h₂, List.map_cons, List.sum_cons, List.map_cons, List.sum_cons, ← add_assoc,
        add_comm (((t.filter p).map v).sum) (v a), add_assoc, ih]

/-- Summing per-key group totals over a duplicate-free list of keys covering
every element recovers the total sum. -/
lemma sum_groups {α : Type} (v : α → ℚ) (k : α → String) :
    ∀ (keys : List String) (l : List α), keys.Nodup → (∀ a ∈ l, k a ∈ keys) →
      (keys.map (fun c => ((l.filter (fun a => k a = c)).map v).sum)).sum = (l.map v).sum := by
  intro keys
  induction keys with
  | nil =>
    intro l _ hmem
    have hl : l = [] := List.eq_nil_iff_forall_not_mem.mpr (fun a ha => by simpa using hmem a ha)
    simp [hl]
  | cons c keys ih =>
    intro l hnd hmem
    have hc : c ∉ keys := (List.nodup_cons.mp hnd).1
    have hnd₂ : keys.Nodup := (List.nodup_cons.mp hnd).2
    have hfilter : ∀ c₂ ∈ keys,
        (l.filter (fun a => !(decide (k a = c)))).filter (fun a => k a = c₂) =
          l.filter (fun a => k a = c₂) := by
      intro c₂ hc₂
      rw [List.filter_filter]
      apply List.filter_congr
      intro a _
      by_cases h : k a = c₂
      · have hcc : ¬c₂ = c := fun hh => hc (hh ▸ hc₂)
        simp [h, hcc]
      · simp [h]
    have hmap : (keys.map (fun c₂ => ((l.filter (fun a => k a = c₂)).map v).sum)) =
        keys.map (fun c₂ =>
          (((l.filter (fun a => !(decide (k a = c)))).filter
            (fun a => k a = c₂)).map v).sum) := by
      apply List.map_congr_left
      intro c₂ hc₂
      rw [hfilter c₂ hc₂]
    have hmem₂ : ∀ a ∈ l.filter (fun a => !(decide (k a = c))), k a ∈ keys := by
      intro a ha
      have h₁ := (List.mem_filter.mp ha).1
      have h₂ : k a ≠ c := by simpa using (List.mem_filter.mp ha).2
      rcases List.mem_cons.mp (hmem a h₁) with h | h
      · exact absurd h h₂
      · exact h
    have hsplit := sum_filter_split l (fun a => decide (k a = c)) v
    rw [List.map_cons, List.sum_cons, hmap, ih _ hnd₂ hmem₂, ← hsplit]

/-- Claim C10: whatever countries the random placeholder assignment attaches
to the filtered rows, the per-country aggregate of the selected category sums
back to exactly the total installs of that category's rows. -/
theorem C10_country_totals (rows : List MapRow) (selected : String) :
    ((agg_data rows selected).map (fun p => p.2)).sum =
      ((selectedRows rows selected).map (fun m => m.row.installs)).sum := by
  have h := sum_groups (fun m : MapRow => m.row.installs) (fun m : MapRow => m.country)
    (((selectedRows rows selected).map (fun m => m.country)).dedup)
    (selectedRows rows selected)
    (List.nodup_dedup _)
    (fun a ha => List.mem_dedup.mpr (List.mem_map_of_mem _ ha))
  simp only [agg_data, List.map_map]
  simpa [Function.comp] using h

end PlayDash
